import Mathlib

/-!
Verification of the Texdit client-side orchestration layer (connectivity
state machine, command parsing/validation, single-flight dispatch, and
contextual suggestions) against a shallow embedding of the C++ sources
(src/servermanager.cpp, src/commandmanager.cpp, src/commandRegistry.cpp).

C++ doubles are modelled as exact rationals; QString as Lean String with
ASCII case mapping; QJsonObject as an association list.
-/

namespace Texdit

/-! ### ServerManager (src/servermanager.cpp) -/

/-- ServerManager::ServerStatus (src/servermanager.h). -/
inductive ServerStatus where
  | Disconnected
  | Connecting
  | Connected
  | Error
deriving DecidableEq, Repr

/-- ServerManager::MAX_RETRY_ATTEMPTS = 15 (src/servermanager.cpp line 9). -/
def MAX_RETRY_ATTEMPTS : Nat := 15

/-- The mutable connectivity state of ServerManager: currentStatus and
consecutiveFailures (src/servermanager.h). -/
structure ServerState where
  currentStatus : ServerStatus
  consecutiveFailures : Nat
deriving DecidableEq, Repr

/-- ServerManager::setStatus (src/servermanager.cpp lines 45-57): writes the
status only on an actual change, and entering Connected resets the
consecutive-failure counter. -/
def setStatus (s : ServerState) (status : ServerStatus) : ServerState :=
  if s.currentStatus = status then s
  else
    let s' := { s with currentStatus := status }
    if status = ServerStatus.Connected then { s' with consecutiveFailures := 0 } else s'

/-- ServerManager::isReady (src/servermanager.h line 31). -/
def isReady (status : ServerStatus) : Bool :=
  status = ServerStatus.Connected

/-- ServerManager::handleHealthCheckResponse (src/servermanager.cpp lines
112-146), with the probe outcome (`error == QNetworkReply::NoError`) passed
as the Boolean `success`. -/
def handleHealthCheckResponse (s : ServerState) (success : Bool) : ServerState :=
  if success then
    let s' := { s with consecutiveFailures := 0 }
    if s'.currentStatus ≠ ServerStatus.Connected then setStatus s' ServerStatus.Connected else s'
  else
    let s' := { s with consecutiveFailures := s.consecutiveFailures + 1 }
    if s'.consecutiveFailures ≥ MAX_RETRY_ATTEMPTS then setStatus s' ServerStatus.Error
    else setStatus s' ServerStatus.Connecting

/-- A sequence of health probes, applied in order. -/
def runProbes (s : ServerState) (results : List Bool) : ServerState :=
  results.foldl handleHealthCheckResponse s

/-- ServerManager::makeRequest network-error branch (src/servermanager.cpp
lines 190-204): a transport failure on a command request increments
consecutiveFailures and escalates to Error when the ceiling is reached while
Connected. -/
def makeRequestNetworkError (s : ServerState) : ServerState :=
  let s' := { s with consecutiveFailures := s.consecutiveFailures + 1 }
  if s'.consecutiveFailures ≥ MAX_RETRY_ATTEMPTS ∧ s'.currentStatus = ServerStatus.Connected then
    setStatus s' ServerStatus.Error
  else s'

/-! ### String utilities (QString operations used by the sources)

QString::toLower, QString::trimmed, QString::startsWith with
Qt::CaseInsensitive, and QString::split on the space character, modelled over
the ASCII subset actually used by the command language. -/

/-- ASCII lowercase mapping of one character (QChar::toLower restricted to
ASCII). -/
def asciiLower (c : Char) : Char :=
  if 'A' ≤ c ∧ c ≤ 'Z' then Char.ofNat (c.toNat + 32) else c

/-- QString::toLower. -/
def strToLower (s : String) : String :=
  String.mk (s.data.map asciiLower)

/-- QString::startsWith(pat, Qt::CaseInsensitive): case-insensitive prefix
test, realised by case-folding both sides. -/
def qStartsWithCI (s pat : String) : Bool :=
  (strToLower pat).isPrefixOf (strToLower s)

/-- QChar::isSpace on the ASCII range: space and the control characters
U+0009..U+000D. -/
def isQtSpace (c : Char) : Bool :=
  c.toNat = 32 ∨ (9 ≤ c.toNat ∧ c.toNat ≤ 13)

/-- QString::trimmed: strip leading and trailing whitespace. -/
def qtrim (s : String) : String :=
  String.mk (((s.data.dropWhile isQtSpace).reverse.dropWhile isQtSpace).reverse)

/-- Split a character list at every occurrence of `sep`, keeping empty
parts. -/
def splitChars (sep : Char) : List Char → List (List Char)
  | [] => [[]]
  | c :: rest =>
    if c = sep then [] :: splitChars sep rest
    else
      match splitChars sep rest with
      | [] => [[c]]
      | t :: ts => (c :: t) :: ts

/-- QString::split(' ', Qt::KeepEmptyParts). -/
def qsplitKeep (s : String) : List String :=
  (splitChars ' ' s.data).map String.mk

/-- QString::split(' ', Qt::SkipEmptyParts). -/
def qsplitSkip (s : String) : List String :=
  (qsplitKeep s).filter (fun p => p ≠ "")

/-! ### commandRegistry (src/commandRegistry.cpp) -/

namespace commandRegistry

/-- commandRegistry::getAllCommands (src/commandRegistry.cpp lines 4-14). -/
def getAllCommands : List String :=
  ["summarise", "tone", "font", "highlight", "keywords", "rephrase", "rewrite"]

/-- commandRegistry::getContextualSuggestions (src/commandRegistry.cpp lines
101-184). -/
def getContextualSuggestions (input : String) : List String :=
  let trimmedInput := qtrim input
  if trimmedInput = "" then
    -- Show only a few starter commands when empty
    ["summarise", "tone", "highlight"]
  else
    let parts := qsplitKeep trimmedInput
    if parts.length = 1 then
      -- User is typing a command name - show ONLY matching commands
      let lowerTok := strToLower (parts.headD "")
      let suggestions := getAllCommands.filter (fun cmd => qStartsWithCI cmd lowerTok)
      -- Limit to 3 suggestions max for clean UI
      if suggestions.length > 3 then suggestions.take 3 else suggestions
    else
      -- User has typed command + space - show argument completions
      let commandName := strToLower (parts.headD "")
      let currentArg := parts.getD 1 ""
      if commandName = "summarise" then
        (["10", "25", "50", "75"].filter
            (fun o => currentArg == "" || o.startsWith currentArg)).map
          (fun o => commandName ++ " " ++ o)
      else if commandName = "tone" then
        (["formal", "casual", "playful"].filter
            (fun o => currentArg == "" || qStartsWithCI o currentArg)).map
          (fun o => commandName ++ " " ++ o)
      else if commandName = "font" then
        (["Arial", "Calibri", "Georgia", "Verdana"].filter
            (fun o => currentArg == "" || qStartsWithCI o currentArg)).map
          (fun o => commandName ++ " " ++ o)
      else if commandName = "highlight" then
        (["keywords", "grammar"].filter
            (fun o => currentArg == "" || qStartsWithCI o currentArg)).map
          (fun o => commandName ++ " " ++ o)
      else
        -- For commands without arguments, just suggest the command itself
        if getAllCommands.contains commandName then [commandName] else []

end commandRegistry
/-! ### CommandManager data model (src/commandmanager.h, src/commandmanager.cpp) -/

namespace CommandManager

/-- CommandManager::CommandResult (src/commandmanager.h lines 18-24). -/
inductive CommandResult where
  | Success
  | InvalidCommand
  | ServerError
  | ValidationError
  | ExecutionError
deriving DecidableEq, Repr

/-- CommandManager::ExecutionState (src/commandmanager.h lines 26-29). -/
inductive ExecutionState where
  | Idle
  | Executing
deriving DecidableEq, Repr

/-- CommandManager::CommandInfo (src/commandmanager.h lines 31-36). -/
structure CommandInfo where
  name : String
  description : String
  requiresServer : Bool
  requiresInput : Bool
deriving DecidableEq, Repr

/-- The `commands` QMap built by CommandManager::initializeCommands
(src/commandmanager.cpp lines 26-80), listed in QMap iteration order
(ascending key order). -/
def commands : List (String × CommandInfo) :=
  [("clear", ⟨"clear", "Clear the input text", false, false⟩),
   ("help", ⟨"help", "Show available commands and their descriptions", false, false⟩),
   ("keywords", ⟨"keywords", "Extract key words and phrases from the text", true, true⟩),
   ("rephrase", ⟨"rephrase", "Rephrase the text while maintaining meaning", true, true⟩),
   ("rewrite", ⟨"rewrite", "Rewrite the text with improved clarity and structure", true, true⟩),
   ("summarise",
     ⟨"summarise",
      "Generate a summary of the input text. Usage: 'summarise' (20-30%) or 'summarise <percentage>' (e.g., 'summarise 50' for 45-55% range)",
      true, true⟩),
   ("tone", ⟨"tone", "Analyze and adjust the tone of the text", true, true⟩)]

/-- `commands.contains(key)`. -/
def commandsContains (key : String) : Bool :=
  commands.any (fun p => p.1 == key)

/-- CommandManager::getCommandInfo (src/commandmanager.cpp lines 111-114):
lookup with the default-constructed fallback. -/
def getCommandInfo (command : String) : CommandInfo :=
  ((commands.lookup command).getD ⟨"", "", false, false⟩)

/-- CommandManager::handleServerStatusChange (src/commandmanager.cpp lines
82-99): the availableCommands list as a function of server readiness; it is
kept in sync with every ServerManager status change. -/
def availableCommands (serverReady : Bool) : List String :=
  (commands.filter (fun p => !p.2.requiresServer || serverReady)).map (fun p => p.1)

/-- A QJsonValue as used by the sources: strings, numbers (doubles modelled
as exact rationals) and nested objects. -/
inductive JVal where
  | jstr : String → JVal
  | jnum : ℚ → JVal
  | jobj : List (String × JVal) → JVal

/-- A QJsonObject. -/
abbrev JObj := List (String × JVal)

/-- QJsonObject::contains / value lookup. -/
def jlookup (o : JObj) (key : String) : Option JVal :=
  (o.find? (fun p => p.1 == key)).map (fun p => p.2)

/-- QJsonObject::contains. -/
def jcontains (o : JObj) (key : String) : Bool :=
  (jlookup o key).isSome

/-- `obj[key] = v`: insert or replace. -/
def jset (o : JObj) (key : String) (v : JVal) : JObj :=
  if jcontains o key then
    o.map (fun p => if p.1 == key then (key, v) else p)
  else o ++ [(key, v)]

/-- QJsonValue::toString (empty for absent or non-string values). -/
def jToString (v : Option JVal) : String :=
  match v with
  | some (JVal.jstr s) => s
  | _ => ""

/-- QJsonValue::toInt (0 for absent, non-numeric, or non-integral values). -/
def jToInt (v : Option JVal) : Int :=
  match v with
  | some (JVal.jnum q) => if q.den = 1 then q.num else 0
  | _ => 0

/-- QJsonValue::toDouble (0 for absent or non-numeric values). -/
def jToRat (v : Option JVal) : ℚ :=
  match v with
  | some (JVal.jnum q) => q
  | _ => 0

/-- QJsonValue::toObject (empty for absent or non-object values). -/
def jToObj (v : Option JVal) : JObj :=
  match v with
  | some (JVal.jobj o) => o
  | _ => []

/-- QString::toInt with the default base 10: leading/trailing whitespace is
ignored, an optional single sign is followed by ASCII digits, and values
outside the C int range are a conversion error (ok = false, modelled as
none). -/
def qtoInt (s : String) : Option Int :=
  let chars := ((s.data.dropWhile isQtSpace).reverse.dropWhile isQtSpace).reverse
  match chars with
  | [] => none
  | c :: rest =>
    let sign : Int := if c = '-' then -1 else 1
    let digits := if c = '-' ∨ c = '+' then rest else c :: rest
    if digits ≠ [] ∧ digits.all Char.isDigit then
      let n : Nat := digits.foldl (fun acc d => acc * 10 + (d.toNat - 48)) 0
      let v : Int := sign * n
      if v < -(2 ^ 31) ∨ 2 ^ 31 - 1 < v then none else some v
    else none

/-- A parsed command: the normalized base command and the structured
argument object produced by CommandManager::parseCommandWithArgs. -/
structure ParsedCommand where
  base : String
  args : JObj

/-- The token-level body of CommandManager::parseCommandWithArgs
(src/commandmanager.cpp lines 287-349), after the input has been split on
spaces with Qt::SkipEmptyParts; returns none where the C++ returns false.
The double literals 0.05, 0.9, 1.1, 0.25, 0.20, 0.30 and the division by
100.0 are modelled as exact rationals. -/
def parseTokens (parts : List String) : Option ParsedCommand :=
  match parts with
  | [] => none
  | p0 :: rest =>
    let baseCommand := strToLower p0
    if baseCommand = "summarise" ∨ baseCommand = "summarize" then
      -- Normalize to backend spelling
      match rest with
      | [] =>
        -- Use default ratio (25%) with a reasonable range
        some ⟨"summarise",
          [("ratio", JVal.jnum (25 / 100)),
           ("min_ratio", JVal.jnum (20 / 100)),
           ("max_ratio", JVal.jnum (30 / 100))]⟩
      | [arg] =>
        match qtoInt arg with
        | none => none
        | some percentage =>
          if percentage ≤ 0 ∨ percentage ≥ 100 then none
          else
            let ratio : ℚ := (percentage : ℚ) / 100
            let minRatio := max (5 / 100 : ℚ) (ratio * (9 / 10))
            let maxRatio := ratio * (11 / 10)
            some ⟨"summarise",
              [("ratio", JVal.jnum ratio),
               ("min_ratio", JVal.jnum minRatio),
               ("max_ratio", JVal.jnum maxRatio)]⟩
      | _ :: _ :: _ => none   -- Too many arguments for summarise
    else if commandsContains baseCommand then
      some ⟨baseCommand, []⟩
    else none

/-- CommandManager::parseCommandWithArgs on the raw command string. -/
def parseCommandWithArgs (command : String) : Option ParsedCommand :=
  parseTokens (qsplitSkip command)

/-- QString::number(x, 'f', prec): fixed-point decimal rendering, modelled on
exact rationals with rounding to the nearest representable value. -/
def formatFixed (x : ℚ) (prec : Nat) : String :=
  let scaled : Int := round (|x| * (10 : ℚ) ^ prec)
  let scale : Int := (10 : Int) ^ prec
  let fpStr := toString (scaled % scale).toNat
  let padded := String.mk (List.replicate (prec - fpStr.length) '0') ++ fpStr
  (if x < 0 then "-" else "") ++ toString (scaled / scale) ++
    (if prec = 0 then "" else "." ++ padded)

/-- CommandManager::formatServerResponse (src/commandmanager.cpp lines
351-400). -/
def formatServerResponse (command : String) (response : JObj) : String :=
  if command = "summarise" then
    -- Handle summarise-specific response format
    if jcontains response "error" then
      "Error: " ++ jToString (jlookup response "error")
    else
      let summary := jToString (jlookup response "summary")
      let originalLength := jToInt (jlookup response "original_length")
      let summaryLength := jToInt (jlookup response "summary_length")
      let compressionRatio := jToRat (jlookup response "compression_ratio")
      let performanceInfo :=
        if jcontains response "performance" then
          let perf := jToObj (jlookup response "performance")
          "\n\n⚡ Performance Metrics (DistilBART-CNN-12-6):\n"
            ++ "• Total time: " ++ formatFixed (jToRat (jlookup perf "total_time")) 2 ++ "s\n"
            ++ "• Tokenization: " ++ formatFixed (jToRat (jlookup perf "tokenization_time")) 2
            ++ "s\n"
            ++ "• Generation: " ++ formatFixed (jToRat (jlookup perf "generation_time")) 2
            ++ "s\n"
            ++ "• Decoding: " ++ formatFixed (jToRat (jlookup perf "decoding_time")) 2 ++ "s"
        else ""
      summary ++ "\n\n📊 Summary Stats:\n"
        ++ "• Original: " ++ toString originalLength ++ " words\n"
        ++ "• Summary: " ++ toString summaryLength ++ " words ("
        ++ formatFixed (compressionRatio * 100) 1 ++ "%)\n"
        ++ "• Quality: High-precision summary with intelligent length control"
        ++ performanceInfo
  else
    -- Default handling for other commands
    let result := jToString (jlookup response "result")
    let result := if result = "" then jToString (jlookup response "output") else result
    if result = "" then "Command '" ++ command ++ "' executed successfully" else result

/-- CommandManager::executeLocalCommand (src/commandmanager.cpp lines
211-242): the synchronous result string (the inputText parameter is unused
by the source). -/
def executeLocalCommand (command : String) (serverReady : Bool) : String :=
  if command = "help" then
    let avail := availableCommands serverReady
    String.intercalate "\n"
      (["Available Commands:", ""] ++
        avail.map (fun cmd =>
          let info := getCommandInfo cmd
          let status := if avail.contains cmd then "✅" else "❌"
          status ++ " " ++ cmd ++ " - " ++ info.description))
  else if command = "clear" then
    "Input cleared"
  else
    "Local command '" ++ command ++ "' executed successfully"

/-- The observable effect of one synchronous call to
CommandManager::executeCommand: the result delivered synchronously via the
callback (if any), the network request issued (if any), the execution state
after the call returns, and the successive values written to executionState
during the call (each write also emits executionStateChanged). -/
structure StepResult where
  callbackNow : Option (CommandResult × String)
  request : Option (String × JObj)
  newExecState : ExecutionState
  trace : List ExecutionState

/-- CommandManager::executeServerCommand (src/commandmanager.cpp lines
244-285) together with the synchronous part of ServerManager::makeRequest
(src/servermanager.cpp lines 148-159): called from the Executing window with
wrappedCallback, so every synchronous callback resets executionState to
Idle; when the request is actually posted the state stays Executing until
the reply arrives. -/
def executeServerCommandStep (serverStatus : ServerStatus)
    (command inputText : String) (ts : ℚ) : StepResult :=
  match parseCommandWithArgs command with
  | none =>
    { callbackNow := some (CommandResult.ValidationError, "Invalid command format: " ++ command),
      request := none, newExecState := ExecutionState.Idle, trace := [ExecutionState.Idle] }
  | some pc =>
    -- Add common fields
    let requestData := jset (jset pc.args "text" (JVal.jstr inputText)) "timestamp" (JVal.jnum ts)
    if serverStatus ≠ ServerStatus.Connected then
      -- makeRequest refuses and fires onError synchronously
      { callbackNow := some (CommandResult.ServerError,
          "Server command failed: " ++ "Server not available for requests"),
        request := none, newExecState := ExecutionState.Idle, trace := [ExecutionState.Idle] }
    else
      { callbackNow := none, request := some ("/api/" ++ pc.base, requestData),
        newExecState := ExecutionState.Executing, trace := [] }

/-- CommandManager::executeCommand (src/commandmanager.cpp lines 129-209):
one synchronous call, with the connectivity status passed explicitly
(availableCommands is kept in sync with it by handleServerStatusChange). -/
def executeCommandStep (serverStatus : ServerStatus) (execState : ExecutionState)
    (command inputText : String) (ts : ℚ) : StepResult :=
  if execState = ExecutionState.Executing then
    -- Check if already executing
    { callbackNow := some (CommandResult.ExecutionError,
        "Cannot execute command: another command is already running"),
      request := none, newExecState := execState, trace := [] }
  else
    match parseCommandWithArgs command with
    | none =>
      { callbackNow := some (CommandResult.InvalidCommand, "Unknown command: " ++ command),
        request := none, newExecState := ExecutionState.Idle,
        trace := [ExecutionState.Executing, ExecutionState.Idle] }
    | some pc =>
      let info := getCommandInfo pc.base
      if !(availableCommands (isReady serverStatus)).contains pc.base then
        { callbackNow := some (CommandResult.ServerError,
            "Command '" ++ pc.base ++ "' is not available (server required but not ready)"),
          request := none, newExecState := ExecutionState.Idle,
          trace := [ExecutionState.Executing, ExecutionState.Idle] }
      else if info.requiresInput && (qtrim inputText == "") then
        { callbackNow := some (CommandResult.ValidationError,
            "Command '" ++ pc.base ++ "' requires input text"),
          request := none, newExecState := ExecutionState.Idle,
          trace := [ExecutionState.Executing, ExecutionState.Idle] }
      else if info.requiresServer then
        let sub := executeServerCommandStep serverStatus command inputText ts
        { sub with trace := ExecutionState.Executing :: sub.trace }
      else
        { callbackNow := some (CommandResult.Success,
            executeLocalCommand pc.base (isReady serverStatus)),
          request := none, newExecState := ExecutionState.Idle,
          trace := [ExecutionState.Executing, ExecutionState.Idle] }

/-- The success reply of a pending server request, delivered through
wrappedCallback (src/commandmanager.cpp lines 269-276 and 194-201): the
formatted response with result Success, and executionState reset to Idle. -/
def deliverServerSuccess (baseCommand : String) (response : JObj) :
    (CommandResult × String) × ExecutionState :=
  ((CommandResult.Success, formatServerResponse baseCommand response), ExecutionState.Idle)

/-- The error reply of a pending server request, delivered through
wrappedCallback (src/commandmanager.cpp lines 277-283 and 194-201). -/
def deliverServerError (errText : String) : (CommandResult × String) × ExecutionState :=
  ((CommandResult.ServerError, "Server command failed: " ++ errText), ExecutionState.Idle)

end CommandManager

lemma handleHealthCheckResponse_success (s : ServerState) :
    handleHealthCheckResponse s true = ⟨ServerStatus.Connected, 0⟩ := by
  unfold handleHealthCheckResponse setStatus
  rcases s with ⟨st, f⟩
  cases st <;> simp

lemma runProbes_append (s : ServerState) (l₁ l₂ : List Bool) :
    runProbes s (l₁ ++ l₂) = runProbes (runProbes s l₁) l₂ :=
  List.foldl_append ..

lemma connected_short_failure_run :
    ∀ k, k < MAX_RETRY_ATTEMPTS →
      (runProbes ⟨ServerStatus.Connected, 0⟩ (List.replicate k false)).currentStatus ≠
        ServerStatus.Error := by
  decide

lemma connecting_short_failure_run :
    ∀ k, k < MAX_RETRY_ATTEMPTS →
      (runProbes ⟨ServerStatus.Connecting, 0⟩ (List.replicate k false)).currentStatus ≠
        ServerStatus.Error := by
  decide

/-- C3: starting from Connecting with a fresh counter, the state machine is at
Error after exactly MAX_RETRY_ATTEMPTS consecutive failed probes and not
before; any successful probe returns the state to Connected with the
consecutive-failure counter reset to 0, so that after pre-history `pre` ending
in a success, fewer than MAX_RETRY_ATTEMPTS subsequent failures never reach
Error; and actually entering Connected resets the counter to zero. -/
theorem connectivity_error_after_max_retries
    (k : Nat) (hk : k < MAX_RETRY_ATTEMPTS) (s : ServerState) (pre : List Bool)
    (hs : s.currentStatus ≠ ServerStatus.Connected) :
    (runProbes ⟨ServerStatus.Connecting, 0⟩
        (List.replicate MAX_RETRY_ATTEMPTS false)).currentStatus = ServerStatus.Error
    ∧ (runProbes ⟨ServerStatus.Connecting, 0⟩
        (List.replicate k false)).currentStatus ≠ ServerStatus.Error
    ∧ handleHealthCheckResponse s true = ⟨ServerStatus.Connected, 0⟩
    ∧ (runProbes s (pre ++ true :: List.replicate k false)).currentStatus ≠ ServerStatus.Error
    ∧ (setStatus s ServerStatus.Connected).consecutiveFailures = 0 := by
  refine ⟨by decide, connecting_short_failure_run k hk, handleHealthCheckResponse_success s, ?_, ?_⟩
  · rw [show pre ++ true :: List.replicate k false = (pre ++ [true]) ++ List.replicate k false by
      simp]
    rw [runProbes_append, runProbes_append]
    have ht : runProbes (runProbes s pre) [true] = ⟨ServerStatus.Connected, 0⟩ := by
      simp [runProbes, handleHealthCheckResponse_success]
    rw [ht]
    exact connected_short_failure_run k hk
  · unfold setStatus
    simp [hs]

/-- Witness for `connectivity_error_after_max_retries` at k = 14,
s = ⟨Error, 99⟩, pre = [false, true, false]. -/
theorem connectivity_error_after_max_retries_witness :
    (runProbes ⟨ServerStatus.Connecting, 0⟩
        (List.replicate MAX_RETRY_ATTEMPTS false)).currentStatus = ServerStatus.Error
    ∧ (runProbes ⟨ServerStatus.Connecting, 0⟩
        (List.replicate 14 false)).currentStatus ≠ ServerStatus.Error
    ∧ handleHealthCheckResponse ⟨ServerStatus.Error, 99⟩ true = ⟨ServerStatus.Connected, 0⟩
    ∧ (runProbes ⟨ServerStatus.Error, 99⟩
        ([false, true, false] ++ true :: List.replicate 14 false)).currentStatus ≠
        ServerStatus.Error
    ∧ (setStatus ⟨ServerStatus.Error, 99⟩ ServerStatus.Connected).consecutiveFailures = 0 :=
  connectivity_error_after_max_retries 14 (by decide) ⟨ServerStatus.Error, 99⟩
    [false, true, false] (by decide)

/-- C10: a transport failure on a command-execution request increments the
same consecutive-failure counter that health probing increments, and when the
incremented counter reaches MAX_RETRY_ATTEMPTS while the state is Connected,
the connectivity state transitions to Error. -/
theorem request_failure_shares_counter (s : ServerState)
    (hc : s.currentStatus = ServerStatus.Connected)
    (hmax : MAX_RETRY_ATTEMPTS ≤ s.consecutiveFailures + 1) :
    (makeRequestNetworkError s).consecutiveFailures = s.consecutiveFailures + 1
    ∧ (handleHealthCheckResponse s false).consecutiveFailures = s.consecutiveFailures + 1
    ∧ (makeRequestNetworkError s).currentStatus = ServerStatus.Error := by
  rcases s with ⟨st, f⟩
  obtain rfl : st = ServerStatus.Connected := hc
  have hpos : MAX_RETRY_ATTEMPTS ≤ f + 1 := hmax
  have h1 : makeRequestNetworkError ⟨ServerStatus.Connected, f⟩ =
      ⟨ServerStatus.Error, f + 1⟩ := by
    simp [makeRequestNetworkError, setStatus, hpos]
  have h2 : handleHealthCheckResponse ⟨ServerStatus.Connected, f⟩ false =
      ⟨ServerStatus.Error, f + 1⟩ := by
    simp [handleHealthCheckResponse, setStatus, hpos]
  exact ⟨by rw [h1], by rw [h2], by rw [h1]⟩
lemma asciiLower_idem (c : Char) : asciiLower (asciiLower c) = asciiLower c := by
  by_cases h : 'A' ≤ c ∧ c ≤ 'Z'
  · have h2 : c.toNat ≤ 90 := by
      have := h.2
      simp [Char.le_def] at this
      exact this
    have h3 : c.toNat + 32 < 55296 := by omega
    have ht : (Char.ofNat (c.toNat + 32)).toNat = c.toNat + 32 := by
      unfold Char.ofNat
      rw [dif_pos (Or.inl h3)]
      rfl
    have e : asciiLower c = Char.ofNat (c.toNat + 32) := by rw [asciiLower, if_pos h]
    rw [e, asciiLower, if_neg]
    intro hcon
    have h1 : 65 ≤ c.toNat := by
      have := h.1
      simp [Char.le_def] at this
      exact this
    have hz : (Char.ofNat (c.toNat + 32)).toNat ≤ 90 := by
      have := hcon.2
      simp [Char.le_def] at this
      exact this
    omega
  · have e : asciiLower c = c := by rw [asciiLower, if_neg h]
    rw [e, asciiLower, if_neg h]

lemma strToLower_idem (s : String) : strToLower (strToLower s) = strToLower s := by
  simp [strToLower, List.map_map, Function.comp_def, asciiLower_idem]


lemma take3_cap (l : List String) : (if l.length > 3 then l.take 3 else l) = l.take 3 := by
  split
  · rfl
  · exact (List.take_of_length_le (by omega)).symm

/-- C7: for an input whose trimmed form is a single token t, the suggestion
function returns exactly the registered command names whose lowercase form
starts with the lowercase prefix t, preserving registry order, capped at 3
items. -/
theorem single_token_suggestions_are_prefix_matches
    (input t : String) (hne : qtrim input ≠ "")
    (hsplit : qsplitKeep (qtrim input) = [t]) :
    commandRegistry.getContextualSuggestions input =
      (commandRegistry.getAllCommands.filter
        (fun c => (strToLower t).isPrefixOf (strToLower c))).take 3 := by
  have hpred : ∀ c : String,
      qStartsWithCI c (strToLower t) = (strToLower t).isPrefixOf (strToLower c) := by
    intro c
    unfold qStartsWithCI
    rw [strToLower_idem]
  simp only [commandRegistry.getContextualSuggestions, hsplit, if_neg hne,
    List.length_singleton, List.headD, if_pos rfl, if_true, hpred, take3_cap]

/-- Witness for `single_token_suggestions_are_prefix_matches` at input
"  Re". -/
theorem single_token_suggestions_witness :
    commandRegistry.getContextualSuggestions "  Re" =
      (commandRegistry.getAllCommands.filter
        (fun c => (strToLower "Re").isPrefixOf (strToLower c))).take 3 :=
  single_token_suggestions_are_prefix_matches "  Re" "Re" (by decide) (by decide)

/-- C8: for input that is empty or whitespace-only, the suggestion function
returns exactly the curated starter subset ["summarise", "tone", "highlight"]
and not the full registry. -/
theorem empty_input_starter_suggestions (input : String) (h : qtrim input = "") :
    commandRegistry.getContextualSuggestions input = ["summarise", "tone", "highlight"]
    ∧ commandRegistry.getContextualSuggestions input ≠ commandRegistry.getAllCommands := by
  have e : commandRegistry.getContextualSuggestions input =
      ["summarise", "tone", "highlight"] := by
    simp [commandRegistry.getContextualSuggestions, h]
  refine ⟨e, ?_⟩
  rw [e]
  decide

/-- Witness for `empty_input_starter_suggestions` at a whitespace-only
input. -/
theorem empty_input_starter_suggestions_witness :
    commandRegistry.getContextualSuggestions " \t " = ["summarise", "tone", "highlight"]
    ∧ commandRegistry.getContextualSuggestions " \t " ≠ commandRegistry.getAllCommands :=
  empty_input_starter_suggestions " \t " (by decide)


/-- C6: parsing the percentage-target command with zero arguments succeeds
with the default structured arguments ratio = 0.25, min_ratio = 0.20,
max_ratio = 0.30. -/
theorem summarise_default_arguments :
    CommandManager.parseCommandWithArgs "summarise" =
      some ⟨"summarise",
        [("ratio", CommandManager.JVal.jnum (25 / 100)),
         ("min_ratio", CommandManager.JVal.jnum (20 / 100)),
         ("max_ratio", CommandManager.JVal.jnum (30 / 100))]⟩ := by
  rfl

/-- C9: the parser accepts the alternate spelling "summarize" and treats it
exactly as "summarise": both spellings produce identical parse results on
every argument list, and every successful parse of the alternate spelling is
normalized to base command "summarise". -/
theorem summarize_spelling_normalized (rest : List String) :
    CommandManager.parseTokens ("summarize" :: rest) =
      CommandManager.parseTokens ("summarise" :: rest)
    ∧ (∀ pc, CommandManager.parseTokens ("summarize" :: rest) = some pc →
        pc.base = "summarise") := by
  constructor
  · rfl
  · intro pc h
    rcases rest with _ | ⟨a, _ | ⟨b, rest'⟩⟩
    · simp only [CommandManager.parseTokens] at h
      rw [if_pos (by decide)] at h
      cases h
      rfl
    · simp only [CommandManager.parseTokens] at h
      rw [if_pos (by decide)] at h
      rcases hq : CommandManager.qtoInt a with _ | p
      · rw [hq] at h
        cases h
      · rw [hq] at h
        dsimp only at h
        by_cases hr : p ≤ 0 ∨ p ≥ 100
        · rw [if_pos hr] at h
          cases h
        · rw [if_neg hr] at h
          cases h
          rfl
    · simp only [CommandManager.parseTokens] at h
      rw [if_pos (by decide)] at h
      cases h

/-- Witness for `summarize_spelling_normalized` at rest = []. -/
theorem summarize_spelling_normalized_witness :
    CommandManager.parseTokens ["summarize"] = CommandManager.parseTokens ["summarise"]
    ∧ CommandManager.ParsedCommand.base
        ⟨"summarise",
         [("ratio", CommandManager.JVal.jnum (25 / 100)),
          ("min_ratio", CommandManager.JVal.jnum (20 / 100)),
          ("max_ratio", CommandManager.JVal.jnum (30 / 100))]⟩ = "summarise" :=
  ⟨(summarize_spelling_normalized []).1,
   (summarize_spelling_normalized []).2
     ⟨"summarise",
      [("ratio", CommandManager.JVal.jnum (25 / 100)),
       ("min_ratio", CommandManager.JVal.jnum (20 / 100)),
       ("max_ratio", CommandManager.JVal.jnum (30 / 100))]⟩ rfl⟩

/-- Witness for `request_failure_shares_counter` at s = ⟨Connected, 14⟩. -/
theorem request_failure_shares_counter_witness :
    (makeRequestNetworkError ⟨ServerStatus.Connected, 14⟩).consecutiveFailures = 14 + 1
    ∧ (handleHealthCheckResponse ⟨ServerStatus.Connected, 14⟩ false).consecutiveFailures = 14 + 1
    ∧ (makeRequestNetworkError ⟨ServerStatus.Connected, 14⟩).currentStatus = ServerStatus.Error :=
  request_failure_shares_counter ⟨ServerStatus.Connected, 14⟩ rfl (by decide)

/-- C4: a command whose descriptor requires the remote server, dispatched
while connectivity is not Connected, fails synchronously with the
remote-unavailable error (code: ServerError with the "not available" message)
and no network request is issued; the dispatcher returns to Idle. -/
theorem remote_unavailable_fails_without_request
    (serverStatus : ServerStatus) (hs : serverStatus ≠ ServerStatus.Connected)
    (command inputText : String) (ts : ℚ) (pc : CommandManager.ParsedCommand)
    (hp : CommandManager.parseCommandWithArgs command = some pc)
    (hr : (CommandManager.getCommandInfo pc.base).requiresServer = true) :
    CommandManager.executeCommandStep serverStatus CommandManager.ExecutionState.Idle
        command inputText ts =
      { callbackNow := some (CommandManager.CommandResult.ServerError,
          "Command '" ++ pc.base ++ "' is not available (server required but not ready)"),
        request := none, newExecState := CommandManager.ExecutionState.Idle,
        trace := [CommandManager.ExecutionState.Executing, CommandManager.ExecutionState.Idle] } := by
  have hready : isReady serverStatus = false := by
    unfold isReady
    simp [hs]
  have hav : CommandManager.availableCommands false = ["clear", "help"] := by decide
  have hcontains : (CommandManager.availableCommands false).contains pc.base = false := by
    rw [hav]
    by_cases h1 : pc.base = "clear"
    · exfalso
      rw [h1] at hr
      exact absurd hr (by decide)
    · by_cases h2 : pc.base = "help"
      · exfalso
        rw [h2] at hr
        exact absurd hr (by decide)
      · simp [List.contains_cons, h1, h2]
  unfold CommandManager.executeCommandStep
  rw [if_neg (by decide : ¬(CommandManager.ExecutionState.Idle =
    CommandManager.ExecutionState.Executing))]
  rw [hp]
  dsimp only
  rw [hready, hcontains]
  rfl

/-- Witness for `remote_unavailable_fails_without_request`: dispatching
"summarise" while Connecting. -/
theorem remote_unavailable_fails_without_request_witness :
    CommandManager.executeCommandStep ServerStatus.Connecting
        CommandManager.ExecutionState.Idle "summarise" "hi" 0 =
      { callbackNow := some (CommandManager.CommandResult.ServerError,
          "Command '" ++ "summarise" ++ "' is not available (server required but not ready)"),
        request := none, newExecState := CommandManager.ExecutionState.Idle,
        trace := [CommandManager.ExecutionState.Executing, CommandManager.ExecutionState.Idle] } :=
  remote_unavailable_fails_without_request ServerStatus.Connecting (by decide)
    "summarise" "hi" 0
    ⟨"summarise",
     [("ratio", CommandManager.JVal.jnum (25 / 100)),
      ("min_ratio", CommandManager.JVal.jnum (20 / 100)),
      ("max_ratio", CommandManager.JVal.jnum (30 / 100))]⟩
    rfl rfl

/-- C5 counterexample: a backend response containing an error field is
delivered with outcome Success (the backend's message is embedded in the
output string), not with a failure outcome as the claim states. -/
theorem backend_error_delivered_as_success :
    CommandManager.deliverServerSuccess "summarise"
        [("error", CommandManager.JVal.jstr "model not loaded")] =
      ((CommandManager.CommandResult.Success, "Error: model not loaded"),
        CommandManager.ExecutionState.Idle)
    ∧ CommandManager.CommandResult.Success ≠ CommandManager.CommandResult.ServerError :=
  ⟨rfl, by decide⟩

/-- C5 amended: for the percentage-target command, a backend response whose
"error" field holds text e is delivered with message "Error: " ++ e — the
backend's error text is surfaced in the message — but with outcome Success,
never a failure outcome. -/
theorem backend_error_text_surfaced (e : String) (response : CommandManager.JObj)
    (h : CommandManager.jlookup response "error" = some (CommandManager.JVal.jstr e)) :
    CommandManager.deliverServerSuccess "summarise" response =
      ((CommandManager.CommandResult.Success, "Error: " ++ e),
        CommandManager.ExecutionState.Idle) := by
  have hc : CommandManager.jcontains response "error" = true := by
    unfold CommandManager.jcontains
    rw [h]
    rfl
  unfold CommandManager.deliverServerSuccess CommandManager.formatServerResponse
  rw [if_pos rfl, if_pos hc, h]
  rfl

/-- Witness for `backend_error_text_surfaced`. -/
theorem backend_error_text_surfaced_witness :
    CommandManager.deliverServerSuccess "summarise"
        [("error", CommandManager.JVal.jstr "model not loaded")] =
      ((CommandManager.CommandResult.Success, "Error: " ++ "model not loaded"),
        CommandManager.ExecutionState.Idle) :=
  backend_error_text_surfaced "model not loaded"
    [("error", CommandManager.JVal.jstr "model not loaded")] rfl

lemma executeCommandStep_idle_shape (serverStatus : ServerStatus)
    (command inputText : String) (ts : ℚ) :
    (∃ res msg,
      CommandManager.executeCommandStep serverStatus CommandManager.ExecutionState.Idle
          command inputText ts =
        { callbackNow := some (res, msg), request := none,
          newExecState := CommandManager.ExecutionState.Idle,
          trace := [CommandManager.ExecutionState.Executing,
            CommandManager.ExecutionState.Idle] }
      ∧ res ≠ CommandManager.CommandResult.ExecutionError)
    ∨ (∃ req,
      CommandManager.executeCommandStep serverStatus CommandManager.ExecutionState.Idle
          command inputText ts =
        { callbackNow := none, request := some req,
          newExecState := CommandManager.ExecutionState.Executing,
          trace := [CommandManager.ExecutionState.Executing] }) := by
  unfold CommandManager.executeCommandStep CommandManager.executeServerCommandStep
  rw [if_neg (by decide : ¬(CommandManager.ExecutionState.Idle =
    CommandManager.ExecutionState.Executing))]
  repeat' (first | split | dsimp only)
  all_goals
    first
      | exact Or.inl ⟨_, _, rfl, by decide⟩
      | exact Or.inr ⟨_, rfl⟩

/-- C2: calling executeCommand while the state is Executing fails
synchronously with ExecutionError, issues no request, performs no state
transition and leaves the in-flight execution untouched; from Idle, every
synchronous completion path sets the state to Executing and back to Idle
exactly once, the asynchronous path leaves the state Executing with the
pending request and every delivery path (success or error) resets it to
Idle, and a call from Idle is never rejected by the gate. -/
theorem single_flight_execution_gate
    (serverStatus : ServerStatus) (command inputText errText baseCommand : String)
    (ts : ℚ) (response : CommandManager.JObj) :
    CommandManager.executeCommandStep serverStatus CommandManager.ExecutionState.Executing
        command inputText ts =
      { callbackNow := some (CommandManager.CommandResult.ExecutionError,
          "Cannot execute command: another command is already running"),
        request := none, newExecState := CommandManager.ExecutionState.Executing,
        trace := [] }
    ∧ ((CommandManager.executeCommandStep serverStatus CommandManager.ExecutionState.Idle
          command inputText ts).request = none →
        (CommandManager.executeCommandStep serverStatus CommandManager.ExecutionState.Idle
          command inputText ts).newExecState = CommandManager.ExecutionState.Idle
        ∧ (CommandManager.executeCommandStep serverStatus CommandManager.ExecutionState.Idle
          command inputText ts).trace =
            [CommandManager.ExecutionState.Executing, CommandManager.ExecutionState.Idle])
    ∧ ((CommandManager.executeCommandStep serverStatus CommandManager.ExecutionState.Idle
          command inputText ts).request ≠ none →
        (CommandManager.executeCommandStep serverStatus CommandManager.ExecutionState.Idle
          command inputText ts).newExecState = CommandManager.ExecutionState.Executing
        ∧ (CommandManager.executeCommandStep serverStatus CommandManager.ExecutionState.Idle
          command inputText ts).trace = [CommandManager.ExecutionState.Executing]
        ∧ (CommandManager.deliverServerSuccess baseCommand response).2 =
            CommandManager.ExecutionState.Idle
        ∧ (CommandManager.deliverServerError errText).2 = CommandManager.ExecutionState.Idle)
    ∧ (∀ res msg,
        (CommandManager.executeCommandStep serverStatus CommandManager.ExecutionState.Idle
          command inputText ts).callbackNow = some (res, msg) →
        res ≠ CommandManager.CommandResult.ExecutionError) := by
  refine ⟨rfl, ?_, ?_, ?_⟩
  · intro h
    rcases executeCommandStep_idle_shape serverStatus command inputText ts with
      ⟨res, msg, heq, -⟩ | ⟨req, heq⟩
    · rw [heq]
      exact ⟨rfl, rfl⟩
    · rw [heq] at h
      simp at h
  · intro h
    rcases executeCommandStep_idle_shape serverStatus command inputText ts with
      ⟨res, msg, heq, -⟩ | ⟨req, heq⟩
    · rw [heq] at h
      exact absurd rfl h
    · rw [heq]
      exact ⟨rfl, rfl, rfl, rfl⟩
  · intro res msg h
    rcases executeCommandStep_idle_shape serverStatus command inputText ts with
      ⟨res', msg', heq, hne⟩ | ⟨req, heq⟩
    · rw [heq] at h
      cases h
      exact hne
    · rw [heq] at h
      cases h

/-- Witness for `single_flight_execution_gate`: a local command from Idle. -/
theorem single_flight_execution_gate_witness :
    (CommandManager.executeCommandStep ServerStatus.Connected
        CommandManager.ExecutionState.Idle "clear" "" 0).newExecState =
      CommandManager.ExecutionState.Idle
    ∧ (CommandManager.executeCommandStep ServerStatus.Connected
        CommandManager.ExecutionState.Idle "clear" "" 0).trace =
      [CommandManager.ExecutionState.Executing, CommandManager.ExecutionState.Idle] :=
  (single_flight_execution_gate ServerStatus.Connected "clear" "" "boom" "tone" 0 []).2.1
    (by rfl)

/-- C1 counterexample: executing the percentage-target command with the
out-of-range argument 150 makes parsing fail, but the failure is delivered as
InvalidCommand ("Unknown command: ..."), not as ValidationError as the claim
states. -/
theorem summarise_range_error_is_invalid_command :
    (CommandManager.executeCommandStep ServerStatus.Connected
        CommandManager.ExecutionState.Idle "summarise 150" "hello" 0).callbackNow =
      some (CommandManager.CommandResult.InvalidCommand, "Unknown command: summarise 150")
    ∧ CommandManager.CommandResult.InvalidCommand ≠
        CommandManager.CommandResult.ValidationError :=
  ⟨rfl, by decide⟩

/-- C1 amended: for 1 ≤ p ≤ 99, parsing "summarise p" succeeds and attaches
ratio = p/100, min_ratio = max(0.05, 0.9*ratio), max_ratio = 1.1*ratio; a
non-integer argument, an integer p ≤ 0 or p ≥ 100, or more than one argument
makes parsing fail (no silent clamp), and executeCommand surfaces that parse
failure as InvalidCommand ("Unknown command: ..."), not as ValidationError. -/
theorem summarise_percentage_parsing :
    (∀ (p : ℤ) (s : String), CommandManager.qtoInt s = some p → 1 ≤ p → p ≤ 99 →
      CommandManager.parseTokens ["summarise", s] =
        some ⟨"summarise",
          [("ratio", CommandManager.JVal.jnum ((p : ℚ) / 100)),
           ("min_ratio", CommandManager.JVal.jnum
              (max (5 / 100) ((9 / 10) * ((p : ℚ) / 100)))),
           ("max_ratio", CommandManager.JVal.jnum ((11 / 10) * ((p : ℚ) / 100)))]⟩)
    ∧ (∀ s, CommandManager.qtoInt s = none →
        CommandManager.parseTokens ["summarise", s] = none)
    ∧ (∀ (p : ℤ) (s : String), CommandManager.qtoInt s = some p → p ≤ 0 ∨ 100 ≤ p →
        CommandManager.parseTokens ["summarise", s] = none)
    ∧ (∀ (a b : String) (rest : List String),
        CommandManager.parseTokens ("summarise" :: a :: b :: rest) = none)
    ∧ (∀ (serverStatus : ServerStatus) (command inputText : String) (ts : ℚ),
        CommandManager.parseCommandWithArgs command = none →
        (CommandManager.executeCommandStep serverStatus CommandManager.ExecutionState.Idle
            command inputText ts).callbackNow =
          some (CommandManager.CommandResult.InvalidCommand, "Unknown command: " ++ command)) := by
  refine ⟨?_, ?_, ?_, ?_, ?_⟩
  · intro p s hq h1 h2
    simp only [CommandManager.parseTokens]
    rw [if_pos (Or.inl (by decide : strToLower "summarise" = "summarise"))]
    rw [hq]
    dsimp only
    rw [if_neg (by omega : ¬(p ≤ 0 ∨ p ≥ 100))]
    rw [mul_comm ((p : ℚ) / 100) ((9 : ℚ) / 10), mul_comm ((p : ℚ) / 100) ((11 : ℚ) / 10)]
  · intro s hq
    simp only [CommandManager.parseTokens]
    rw [if_pos (Or.inl (by decide : strToLower "summarise" = "summarise"))]
    rw [hq]
  · intro p s hq hr
    simp only [CommandManager.parseTokens]
    rw [if_pos (Or.inl (by decide : strToLower "summarise" = "summarise"))]
    rw [hq]
    dsimp only
    rw [if_pos (by omega : p ≤ 0 ∨ p ≥ 100)]
  · intro a b rest
    simp only [CommandManager.parseTokens]
    rw [if_pos (Or.inl (by decide : strToLower "summarise" = "summarise"))]
  · intro serverStatus command inputText ts h
    unfold CommandManager.executeCommandStep
    rw [if_neg (by decide : ¬(CommandManager.ExecutionState.Idle =
      CommandManager.ExecutionState.Executing))]
    rw [h]

/-- Witness for `summarise_percentage_parsing` at p = 50 and at the
out-of-range p = 150. -/
theorem summarise_percentage_parsing_witness :
    CommandManager.parseTokens ["summarise", "50"] =
      some ⟨"summarise",
        [("ratio", CommandManager.JVal.jnum (((50 : ℤ) : ℚ) / 100)),
         ("min_ratio", CommandManager.JVal.jnum
            (max (5 / 100) ((9 / 10) * (((50 : ℤ) : ℚ) / 100)))),
         ("max_ratio", CommandManager.JVal.jnum ((11 / 10) * (((50 : ℤ) : ℚ) / 100)))]⟩
    ∧ CommandManager.parseTokens ["summarise", "150"] = none :=
  ⟨summarise_percentage_parsing.1 50 "50" (by decide) (by decide) (by decide),
   summarise_percentage_parsing.2.2.1 150 "150" (by decide) (by decide)⟩

end Texdit
